import Mathlib

/-!
Verification of the tennis match predictor scripts
(tennis_match_predictor-v12.py, the full pipeline, and
tennis_match_predictor-app.py, a variant of the loading phase).

The scripts are sequential glue code; we embed the decision logic
shallowly:

* a CSV row becomes a `Row` of optional string fields (a missing column
  or a NaN cell is `none`; pandas treats both as null);
* a parsed table is a `List Row`; a file that fails to parse is `none`;
* the retry helper and the primary-source acquisition block become pure
  functions over an explicit environment (`PrimEnv`) recording which
  external operations would succeed, and a state (`PrimState`) recording
  which cache artifacts exist on disk;
* the per-click prediction block becomes `predict`, with the fitted
  XGBoost classifier abstracted as an oracle argument (its input is the
  encoded design matrix with labels and the encoded query row, exactly
  what the script passes to fit/predict).
-/

namespace TennisPredictor

/-- One match record (one CSV row).  Fields the pipeline reads; each is
optional because pandas represents a missing value as NaN (null). -/
structure Row where
  winner_name : Option String
  loser_name : Option String
  surface : Option String
  tourney_level : Option String
deriving DecidableEq, Repr

/-- A parsed table is an ordered list of rows. -/
abbrev Table := List Row

/-- pandas `Series.isin(vs)` applied to one possibly-null cell: a null
cell is never a member. -/
def optIsin (x : Option String) (vs : List String) : Bool :=
  match x with
  | some s => vs.contains s
  | none => false

/-- v12 lines 137-138: drop rows with a null winner or loser name, then
drop rows with a null surface or tournament level. -/
def preprocess (df : Table) : Table :=
  (df.filter fun r => r.winner_name.isSome && r.loser_name.isSome).filter
    fun r => r.surface.isSome && r.tourney_level.isSome

/-- v12 line 150: the head-to-head training subset
df[df.winner_name.isin([p1,p2]) and df.loser_name.isin([p1,p2])]. -/
def matchData (df : Table) (player1 player2 : String) : Table :=
  df.filter fun r =>
    optIsin r.winner_name [player1, player2] && optIsin r.loser_name [player1, player2]

/-- Modelled from the spec: a match strictly between players a and b
(the spec's head-to-head notion: the winner is one of the two and the
loser is the other).  Used only to compare the spec's wording with the
filter the code applies. -/
def specStrictlyBetween (r : Row) (a b : String) : Bool :=
  (r.winner_name == some a && r.loser_name == some b) ||
    (r.winner_name == some b && r.loser_name == some a)

/-- v12 lines 119-127: the list of successfully loaded tables.
`primary` holds one entry per globbed primary file (`none` = that file
raised while parsing and was skipped with a warning); `kaggle` is the
secondary table (`none` = the CSV file does not exist).  The secondary
table is appended only when it has at least one row (kaggle_df.shape[0]
> 0). -/
def loadedTables (primary : List (Option Table)) (kaggle : Option Table) : List Table :=
  primary.filterMap id ++
    (match kaggle with
     | some t => if 0 < t.length then [t] else []
     | none => [])

/-- v12 lines 119-138: load all tables, abort (st.error + st.stop,
modelled as `none`) when no table at all was loaded, otherwise
concatenate them in order and apply the null-row filter. -/
def loadAndMerge (primary : List (Option Table)) (kaggle : Option Table) : Option Table :=
  let dfs := loadedTables primary kaggle
  if dfs.isEmpty then none
  else some (preprocess dfs.flatten)

/-! One-hot encoding (v12 lines 156-165).  pd.get_dummies turns each
distinct observed category v of column c into an indicator column named
"c_v"; only the column *set* matters to the properties below (pandas
orders the per-column category blocks lexicographically, we keep first
occurrence order). -/

/-- Distinct elements of a list, first occurrence first. -/
def distincts (l : List String) : List String :=
  l.foldl (fun acc x => if acc.contains x then acc else acc ++ [x]) []

/-- Columns of pd.get_dummies(match_data[["surface", "tourney_level"]])
(v12 line 157): one indicator column per distinct non-null category
observed in the head-to-head subset. -/
def trainCols (md : Table) : List String :=
  (distincts (md.filterMap (fun r => r.surface))).map (fun v => "surface_" ++ v) ++
    (distincts (md.filterMap (fun r => r.tourney_level))).map
      (fun v => "tourney_level_" ++ v)

/-- Columns of pd.get_dummies on the one-row query frame (v12 line
164-165): one indicator per query category. -/
def queryDummies (surface tourney_level : String) : List String :=
  ["surface_" ++ surface, "tourney_level_" ++ tourney_level]

/-- v12 line 165: pd.get_dummies(test_input).reindex(columns=X.columns,
fill_value=0).  The result has exactly the training columns; a training
column also present among the query's dummies keeps its value 1, every
other training column is filled with 0, and query dummies absent from
training are dropped. -/
def encodeQuery (cols : List String) (surface tourney_level : String) :
    List (String × Nat) :=
  cols.map fun c =>
    (c, if (queryDummies surface tourney_level).contains c then 1 else 0)

/-- The dummy columns a single training row lights up. -/
def rowDummies (r : Row) : List String :=
  (match r.surface with | some s => ["surface_" ++ s] | none => []) ++
    (match r.tourney_level with | some t => ["tourney_level_" ++ t] | none => [])

/-- One training row encoded over the column set `cols`. -/
def encodeRow (cols : List String) (r : Row) : List Nat :=
  cols.map fun c => if (rowDummies r).contains c then 1 else 0

/-- Result of one click of the Predict Winner button. -/
inductive PredictResult where
  | insufficientData
  | predicted (winner : String)
deriving DecidableEq, Repr

/-- v12 lines 149-171.  `clf` abstracts XGBClassifier fit + predict: it
receives the encoded design matrix zipped with the labels and the
encoded query row, and returns the predicted binary label.  When the
head-to-head subset is empty the script shows the warning
"No head-to-head data between selected players." and fits nothing;
otherwise it maps label true to player1 and false to player2. -/
def predict (clf : List (List Nat × Bool) → List Nat → Bool)
    (df : Table) (player1 player2 surface tourney_level : String) : PredictResult :=
  let md := matchData df player1 player2
  if md.isEmpty then
    PredictResult.insufficientData
  else
    let cols := trainCols md
    let X := md.map (encodeRow cols)
    let y := md.map (fun r => r.winner_name == some player1)
    let test_input := (encodeQuery cols surface tourney_level).map Prod.snd
    let prediction := clf (X.zip y) test_input
    PredictResult.predicted (if prediction then player1 else player2)

/-! File-name filters.  v12 line 116 globs atp_data/atp_matches_*.csv
with no further restriction; app line 34 globs the same pattern and
line 35 additionally keeps only names whose characters [-8:-4] are a
digit string between 1981 and 2024. -/

/-- The glob pattern atp_matches_*.csv on a base name: the fixed prefix,
the fixed suffix, with anything (possibly empty) in between.  The
prefix contains no dot, so prefix + suffix cannot overlap and this is
exactly the glob's language. -/
def globMatch (f : String) : Bool :=
  "atp_matches_".toList.isPrefixOf f.toList && ".csv".toList.isSuffixOf f.toList

/-- Python's slice f[-8:-4] (clamping exactly as Python does on short
strings). -/
def pySlice84 (f : String) : List Char :=
  let cs := f.toList
  (cs.drop (cs.length - 8)).take ((cs.length - 4) - (cs.length - 8))

/-- Value of a digit string, as Python's int() on an all-digit string. -/
def digitsVal (cs : List Char) : Nat :=
  cs.foldl (fun acc c => acc * 10 + (c.toNat - 48)) 0

/-- app line 35: f[-8:-4].isdigit() and 1981 <= int(f[-8:-4]) <= 2024.
Python's str.isdigit is false on the empty string. -/
def yearOk (f : String) : Bool :=
  let cs := pySlice84 f
  !cs.isEmpty && cs.all (fun c => c.isDigit) &&
    decide (1981 ≤ digitsVal cs) && decide (digitsVal cs ≤ 2024)

/-- app lines 34-35: the files the app variant consumes. -/
def appAllFiles (names : List String) : List String :=
  (names.filter globMatch).filter yearOk

/-- v12 line 116 + loading loop: the primary directory is modelled as
(file base name, parse result) pairs; v12 keeps every glob match, in
directory order (sorted() only permutes the list and does not affect
which files contribute). -/
def v12FileTables (dir : List (String × Option Table)) : List (Option Table) :=
  (dir.filter fun p => globMatch p.1).map Prod.snd

/-- The merged dataset the v12 pipeline builds from a primary directory
and the optional secondary table. -/
def v12Merged (dir : List (String × Option Table)) (kaggle : Option Table) :
    Option Table :=
  loadAndMerge (v12FileTables dir) kaggle

/-! Primary-source acquisition (v12 lines 29-92). -/

/-- v12 lines 34-42, the retry helper.  `succeeds n` tells whether the
n-th (0-based) extractall call would succeed.  Returns (result, number
of attempts made, the sleeps performed in milliseconds).  The script
warns and sleeps 1.5 * (attempt + 1) seconds after every failed
attempt, including the last, and returns False once the loop ends. -/
def try_extract_go (succeeds : Nat → Bool) : Nat → Nat → Bool × Nat × List Nat
  | attempt, 0 => (false, attempt, [])
  | attempt, Nat.succ fuel =>
    if succeeds attempt then (true, attempt + 1, [])
    else
      let r := try_extract_go succeeds (attempt + 1) fuel
      (r.1, r.2.1, 1500 * (attempt + 1) :: r.2.2)

/-- try_extract_all(zipfile_obj, extract_path, max_retries=3). -/
def try_extract_all (succeeds : Nat → Bool) (max_retries : Nat := 3) :
    Bool × Nat × List Nat :=
  try_extract_go succeeds 0 max_retries

/-- On-disk cache state before/after the acquisition block:
whether atp_data exists and with what entries, and whether
cached_atp_dataset.zip exists. -/
structure PrimState where
  atpData : Option (List String)
  zipCache : Bool
deriving DecidableEq, Repr

/-- Outcomes of the external operations the acquisition block performs,
fixed up front so the block itself is a pure function. -/
structure PrimEnv where
  /-- requests.get(DATA_URL) and the file write succeed. -/
  fetchOk : Bool
  /-- whether the n-th extractall attempt succeeds. -/
  extractOk : Nat → Bool
  /-- the extracted tree contains _temp_tennis_data/tennis_atp-master. -/
  hasMasterFolder : Bool
  /-- the entries of that folder. -/
  masterContents : List String
  /-- shutil.rmtree of a stale temp dir raises (line 66). -/
  preCleanFails : Bool
  /-- shutil.rmtree("atp_data") raises (line 78). -/
  rmAtpFails : Bool
  /-- os.rename(extracted_dir, "atp_data") raises (line 79). -/
  renameFails : Bool
  /-- the final shutil.rmtree of the temp dir raises (line 87). -/
  postCleanFails : Bool

/-- Result of the acquisition block: the cache state afterwards, whether
st.stop() halted the script, whether an HTTP fetch was performed, and
the st.error / st.warning messages shown. -/
structure AcqOut where
  state : PrimState
  halted : Bool
  fetched : Bool
  errors : List String
  warnings : List String
deriving DecidableEq, Repr

/-- v12 line 53: the cache freshness test — the whole block is skipped
iff atp_data exists and os.listdir is non-empty. -/
def primFresh (st : PrimState) : Bool :=
  match st.atpData with
  | some l => !l.isEmpty
  | none => false

/-- Whether the move-into-place step (lines 76-81) raises: removing an
existing atp_data can raise, and the rename can raise. -/
def moveFails (env : PrimEnv) (st : PrimState) : Bool :=
  match st.atpData with
  | some _ => env.rmAtpFails || env.renameFails
  | none => env.renameFails

/-- v12 lines 53-92, the primary-source acquisition block.  Paths:
fresh cache — skip everything; fetch failure (only attempted when the
zip cache is absent) — error, halt; extraction exhausted — error, halt;
expected folder missing — error, halt; move-into-place raises — error
but NO halt, executions continues with whatever atp_data then holds;
otherwise atp_data is replaced by the extracted folder's contents.
Temp-dir cleanups produce warnings only. -/
def ensurePrimarySource (env : PrimEnv) (st : PrimState) : AcqOut :=
  if primFresh st then
    { state := st, halted := false, fetched := false, errors := [], warnings := [] }
  else
    let fetched := !st.zipCache
    if fetched && !env.fetchOk then
      { state := st, halted := true, fetched := fetched,
        errors := ["Download failed"], warnings := [] }
    else
      let st1 : PrimState := { atpData := st.atpData, zipCache := true }
      let w0 := if env.preCleanFails then ["Failed to clean temp directory"] else []
      let ext := try_extract_all env.extractOk 3
      let w1 := w0 ++ ext.2.2.map (fun _ => "extract attempt failed")
      if !ext.1 then
        { state := st1, halted := true, fetched := fetched,
          errors := ["Could not extract ATP dataset after multiple retries."],
          warnings := w1 }
      else if env.hasMasterFolder then
        let moved : PrimState × List String :=
          match st.atpData with
          | some _ =>
            if env.rmAtpFails then
              (st1, ["Failed to move ATP data directory"])
            else if env.renameFails then
              ({ atpData := none, zipCache := true }, ["Failed to move ATP data directory"])
            else
              ({ atpData := some env.masterContents, zipCache := true }, [])
          | none =>
            if env.renameFails then
              (st1, ["Failed to move ATP data directory"])
            else
              ({ atpData := some env.masterContents, zipCache := true }, [])
        let w2 := w1 ++
          (if env.postCleanFails then ["Could not fully delete temp folder (harmless)"] else [])
        { state := moved.1, halted := false, fetched := fetched,
          errors := moved.2, warnings := w2 }
      else
        { state := st1, halted := true, fetched := fetched,
          errors := ["ATP data folder not found in extracted zip!"], warnings := w1 }

/-! Helper lemmas (shared; not tied to any one claim). -/

lemma mem_preprocess {df : Table} {r : Row} :
    r ∈ preprocess df ↔
      r ∈ df ∧ r.winner_name.isSome = true ∧ r.loser_name.isSome = true ∧
        r.surface.isSome = true ∧ r.tourney_level.isSome = true := by
  simp only [preprocess, List.mem_filter, Bool.and_eq_true, and_assoc]

lemma loadedTables_nil_iff {primary : List (Option Table)} {kaggle : Option Table} :
    loadedTables primary kaggle = [] ↔
      (∀ t ∈ primary, t = none) ∧ (∀ t, kaggle = some t → t = []) := by
  cases kaggle with
  | none => simp [loadedTables]
  | some t =>
    rcases t with _ | ⟨r, rs⟩
    · simp [loadedTables]
    · simp [loadedTables]

lemma loadAndMerge_eq_none_iff {primary : List (Option Table)} {kaggle : Option Table} :
    loadAndMerge primary kaggle = none ↔ loadedTables primary kaggle = [] := by
  rcases hl : loadedTables primary kaggle with _ | ⟨t, ts⟩ <;> simp [loadAndMerge, hl]

lemma loadAndMerge_eq_some_iff {primary : List (Option Table)} {kaggle : Option Table}
    {m : Table} (h : loadAndMerge primary kaggle = some m) :
    m = preprocess (loadedTables primary kaggle).flatten := by
  rcases hl : loadedTables primary kaggle with _ | ⟨t, ts⟩
  · simp [loadAndMerge, hl] at h
  · simp only [loadAndMerge, hl, List.isEmpty_cons, if_false] at h
    simp_all

/-- C4: the loading loop skips any per-year file that fails to parse and
still merges the remaining tables, and the pipeline aborts if and only
if zero tables were loaded: every primary file failed to parse and no
non-empty secondary table is present.  Moreover one successfully parsed
primary file prevents the abort, and every complete row of a parsed
primary table survives into the merged dataset. -/
theorem loadAndMerge_abort_iff (primary : List (Option Table)) (kaggle : Option Table) :
    (loadAndMerge primary kaggle = none ↔
      (∀ t ∈ primary, t = none) ∧ (∀ t, kaggle = some t → t = [])) ∧
    (∀ t : Table, some t ∈ primary → loadAndMerge primary kaggle ≠ none) ∧
    (∀ (t : Table) (r : Row) (m : Table), some t ∈ primary → r ∈ t →
      r.winner_name.isSome = true → r.loser_name.isSome = true →
      r.surface.isSome = true → r.tourney_level.isSome = true →
      loadAndMerge primary kaggle = some m → r ∈ m) := by
  have hmem : ∀ t : Table, some t ∈ primary → t ∈ loadedTables primary kaggle := by
    intro t ht
    exact List.mem_append_left _ (List.mem_filterMap.mpr ⟨some t, ht, rfl⟩)
  refine ⟨loadAndMerge_eq_none_iff.trans loadedTables_nil_iff, ?_, ?_⟩
  · intro t ht hnone
    have := loadAndMerge_eq_none_iff.mp hnone
    rw [this] at hmem
    exact absurd (hmem t ht) (List.not_mem_nil t)
  · intro t r m ht hr h1 h2 h3 h4 hm
    rw [loadAndMerge_eq_some_iff hm]
    exact mem_preprocess.mpr
      ⟨List.mem_flatten_of_mem (hmem t ht) hr, h1, h2, h3, h4⟩

/-- C4 witness: three good files and one malformed file merge without
aborting and keep the good rows, while zero loadable tables abort. -/
theorem loadAndMerge_abort_iff_witness :
    loadAndMerge [some [⟨some "P", some "Q", some "Hard", some "G"⟩],
        none, some [], some []] none ≠ none ∧
    (⟨some "P", some "Q", some "Hard", some "G"⟩ : Row) ∈
      ([⟨some "P", some "Q", some "Hard", some "G"⟩] : Table) ∧
    loadAndMerge ([none, none] : List (Option Table)) (some []) = none := by
  refine ⟨(loadAndMerge_abort_iff _ none).2.1
      [⟨some "P", some "Q", some "Hard", some "G"⟩] (by decide), by decide, ?_⟩
  exact (loadAndMerge_abort_iff [none, none] (some [])).1.mpr (by decide)

/-- C5: every row of the merged dataset has a non-null winner name,
loser name, surface, and tournament level, and the same holds of the
head-to-head subset any predict call derives from it. -/
theorem loadAndMerge_no_nulls (primary : List (Option Table)) (kaggle : Option Table)
    (m : Table) (h : loadAndMerge primary kaggle = some m) :
    (∀ r ∈ m, r.winner_name.isSome = true ∧ r.loser_name.isSome = true ∧
      r.surface.isSome = true ∧ r.tourney_level.isSome = true) ∧
    (∀ (player1 player2 : String), ∀ r ∈ matchData m player1 player2,
      r.winner_name.isSome = true ∧ r.loser_name.isSome = true ∧
      r.surface.isSome = true ∧ r.tourney_level.isSome = true) := by
  have hall : ∀ r ∈ m, r.winner_name.isSome = true ∧ r.loser_name.isSome = true ∧
      r.surface.isSome = true ∧ r.tourney_level.isSome = true := by
    intro r hr
    rw [loadAndMerge_eq_some_iff h] at hr
    exact (mem_preprocess.mp hr).2
  refine ⟨hall, ?_⟩
  intro p1 p2 r hr
  exact hall r (List.mem_filter.mp hr).1

/-- C5 witness: the no-null invariant evaluated on a one-file load. -/
theorem loadAndMerge_no_nulls_witness :
    (some "P" : Option String).isSome = true ∧
      (some "Q" : Option String).isSome = true ∧
      (some "Hard" : Option String).isSome = true ∧
      (some "G" : Option String).isSome = true :=
  (loadAndMerge_no_nulls [some [⟨some "P", some "Q", some "Hard", some "G"⟩]] none
      [⟨some "P", some "Q", some "Hard", some "G"⟩] (by decide)).1
    ⟨some "P", some "Q", some "Hard", some "G"⟩ (by decide)

/-- C10: a secondary CSV that parses to zero rows behaves exactly like
an absent secondary source: it is not appended to the merge, it
contributes no rows, and it does not count for the zero-tables abort
check. -/
theorem kaggle_empty_like_absent (primary : List (Option Table)) :
    loadedTables primary (some []) = loadedTables primary none ∧
    loadAndMerge primary (some []) = loadAndMerge primary none := by
  constructor
  · simp [loadedTables]
  · simp [loadAndMerge, loadedTables]

lemma optIsin_pair {x : Option String} {a b : String} :
    optIsin x [a, b] = true ↔ x = some a ∨ x = some b := by
  cases x with
  | none => simp [optIsin]
  | some s => simp [optIsin, List.contains_eq_any_beq]

lemma mem_matchData {df : Table} {p1 p2 : String} {r : Row} :
    r ∈ matchData df p1 p2 ↔
      r ∈ df ∧ optIsin r.winner_name [p1, p2] = true ∧
        optIsin r.loser_name [p1, p2] = true := by
  simp [matchData, List.mem_filter, Bool.and_eq_true]

lemma specStrictlyBetween_iff {r : Row} {a b : String} :
    specStrictlyBetween r a b = true ↔
      (r.winner_name = some a ∧ r.loser_name = some b) ∨
        (r.winner_name = some b ∧ r.loser_name = some a) := by
  simp [specStrictlyBetween]

/-- C1 counterexample: the filter on line 150 keeps a row whose winner
and loser carry the same selected name, although such a row is not a
match strictly between the two selected players. -/
theorem matchData_includes_same_name_row :
    matchData [⟨some "Alice", some "Alice", some "Hard", some "G"⟩] "Alice" "Bob" =
      [⟨some "Alice", some "Alice", some "Hard", some "G"⟩] ∧
    specStrictlyBetween (⟨some "Alice", some "Alice", some "Hard", some "G"⟩ : Row)
      "Alice" "Bob" = false := by
  constructor
  · decide
  · decide

/-- C1 (amended): a row is in the head-to-head training subset iff its
winner name is one of the two selected names and its loser name is one
of the two selected names (not necessarily the other one); whenever the
row's winner and loser differ, this coincides with being a match
strictly between the two selected players. -/
theorem matchData_mem_iff (df : Table) (p1 p2 : String) (r : Row) :
    (r ∈ matchData df p1 p2 ↔
      r ∈ df ∧ (r.winner_name = some p1 ∨ r.winner_name = some p2) ∧
        (r.loser_name = some p1 ∨ r.loser_name = some p2)) ∧
    (r.winner_name ≠ r.loser_name →
      (r ∈ matchData df p1 p2 ↔ r ∈ df ∧ specStrictlyBetween r p1 p2 = true)) := by
  have h1 : r ∈ matchData df p1 p2 ↔
      r ∈ df ∧ (r.winner_name = some p1 ∨ r.winner_name = some p2) ∧
        (r.loser_name = some p1 ∨ r.loser_name = some p2) := by
    rw [mem_matchData, optIsin_pair, optIsin_pair]
  refine ⟨h1, fun hne => ?_⟩
  rw [h1, specStrictlyBetween_iff]
  constructor
  · rintro ⟨hdf, hw | hw, hl | hl⟩
    · exact absurd (hw.trans hl.symm) hne
    · exact ⟨hdf, Or.inl ⟨hw, hl⟩⟩
    · exact ⟨hdf, Or.inr ⟨hw, hl⟩⟩
    · exact absurd (hw.trans hl.symm) hne
  · rintro ⟨hdf, ⟨hw, hl⟩ | ⟨hw, hl⟩⟩
    · exact ⟨hdf, Or.inl hw, Or.inr hl⟩
    · exact ⟨hdf, Or.inr hw, Or.inl hl⟩

/-- C1 witness: on a genuine head-to-head row the characterisation and
the strictly-between reading agree. -/
theorem matchData_mem_iff_witness :
    (⟨some "A", some "B", some "Hard", some "G"⟩ : Row) ∈
      matchData [⟨some "A", some "B", some "Hard", some "G"⟩] "A" "B" ∧
    specStrictlyBetween (⟨some "A", some "B", some "Hard", some "G"⟩ : Row) "A" "B" =
      true := by
  have h := matchData_mem_iff [⟨some "A", some "B", some "Hard", some "G"⟩] "A" "B"
    ⟨some "A", some "B", some "Hard", some "G"⟩
  exact ⟨(h.2 (by decide)).mpr (by decide), by decide⟩

/-- C6 counterexample: a dataset with a single row whose winner and
loser are both the first selected player contains zero matches between
the two selected players, yet the script does not warn about missing
head-to-head data: it trains and returns a prediction. -/
theorem predict_degenerate_row_gives_prediction :
    (([⟨some "Carl", some "Carl", some "Clay", some "A"⟩] : Table).filter
        (fun r => specStrictlyBetween r "Carl" "Dana")) = [] ∧
    predict (fun _ _ => true) [⟨some "Carl", some "Carl", some "Clay", some "A"⟩]
      "Carl" "Dana" "Clay" "A" = PredictResult.predicted "Carl" := by
  constructor
  · decide
  · decide

/-- C6 (amended): whenever the filtered subset of rows whose winner and
loser names both lie among the two selected players is empty, the
script signals insufficient head-to-head data and produces no
prediction, for every classifier behaviour. -/
theorem predict_empty_subset_insufficient
    (clf : List (List Nat × Bool) → List Nat → Bool) (df : Table)
    (p1 p2 s l : String) (h : matchData df p1 p2 = []) :
    predict clf df p1 p2 s l = PredictResult.insufficientData ∧
    ∀ w, predict clf df p1 p2 s l ≠ PredictResult.predicted w := by
  have hmain : predict clf df p1 p2 s l = PredictResult.insufficientData := by
    simp [predict, h]
  exact ⟨hmain, fun w hw => by simp [hmain] at hw⟩

/-- C6 witness: the empty dataset yields the insufficient-data warning. -/
theorem predict_empty_subset_insufficient_witness :
    predict (fun _ _ => true) [] "A" "B" "Hard" "G" =
      PredictResult.insufficientData :=
  (predict_empty_subset_insufficient (fun _ _ => true) [] "A" "B" "Hard" "G"
    (by decide)).1

/-- C7: the encoded query carries exactly the training matrix's one-hot
columns, in order; a training column not among the query's dummies is
filled with 0; a training column among the query's dummies keeps value
1; and a column absent from the training set never appears, so an
unseen query category is silently dropped and encoding is total (it
never raises). -/
theorem encodeQuery_aligns (md : Table) (s l : String) :
    ((encodeQuery (trainCols md) s l).map Prod.fst = trainCols md) ∧
    (∀ c ∈ trainCols md, c ∉ queryDummies s l →
      (c, 0) ∈ encodeQuery (trainCols md) s l) ∧
    (∀ c ∈ trainCols md, c ∈ queryDummies s l →
      (c, 1) ∈ encodeQuery (trainCols md) s l) ∧
    (∀ c, c ∉ trainCols md → ∀ v, (c, v) ∉ encodeQuery (trainCols md) s l) := by
  refine ⟨?_, ?_, ?_, ?_⟩
  · rw [encodeQuery, List.map_map]
    exact List.map_id'' (fun x => rfl) _
  · intro c hc hnot
    exact List.mem_map.mpr ⟨c, hc, by simp [hnot]⟩
  · intro c hc hyes
    exact List.mem_map.mpr ⟨c, hc, by simp [hyes]⟩
  · intro c hc v hmem
    rcases List.mem_map.mp hmem with ⟨c', hc', he⟩
    rw [Prod.mk.injEq] at he
    exact hc (he.1 ▸ hc')

/-- C7 witness: with training subset on Hard at level G and a query on
Clay, the seen level column gets 1, the unseen surface column gets 0,
and the query's Clay dummy is dropped. -/
theorem encodeQuery_aligns_witness :
    ("surface_Hard", 0) ∈
      encodeQuery (trainCols [⟨some "P", some "Q", some "Hard", some "G"⟩]) "Clay" "G" ∧
    ("tourney_level_G", 1) ∈
      encodeQuery (trainCols [⟨some "P", some "Q", some "Hard", some "G"⟩]) "Clay" "G" ∧
    ("surface_Clay", 1) ∉
      encodeQuery (trainCols [⟨some "P", some "Q", some "Hard", some "G"⟩]) "Clay" "G" := by
  have h := encodeQuery_aligns [⟨some "P", some "Q", some "Hard", some "G"⟩] "Clay" "G"
  exact ⟨h.2.1 _ (by decide) (by decide), h.2.2.1 _ (by decide) (by decide),
    h.2.2.2 _ (by decide) 1⟩

/-- C2 counterexample: a primary file whose year suffix 1968 lies
outside [1981, 2024] still matches the v12 glob and contributes its
rows to the merged dataset built by the v12 pipeline. -/
theorem v12_consumes_out_of_range_year :
    yearOk "atp_matches_1968.csv" = false ∧
    globMatch "atp_matches_1968.csv" = true ∧
    v12Merged [("atp_matches_1968.csv",
        some [⟨some "P", some "Q", some "Hard", some "G"⟩])] none =
      some [⟨some "P", some "Q", some "Hard", some "G"⟩] := by
  refine ⟨by decide, by decide, by decide⟩

/-- C2 (amended): only the app variant enforces the year range — every
file it consumes matches the glob pattern and has a 4-digit year suffix
in [1981, 2024] — whereas the v12 pipeline consumes every glob-matching
file of the primary directory regardless of its year suffix. -/
theorem year_filter_app_only :
    (∀ (names : List String) (f : String), f ∈ appAllFiles names →
      globMatch f = true ∧ yearOk f = true) ∧
    (∀ (dir : List (String × Option Table)) (p : String × Option Table),
      p ∈ dir → globMatch p.1 = true → p.2 ∈ v12FileTables dir) := by
  constructor
  · intro names f hf
    have h1 := List.mem_filter.mp hf
    have h2 := List.mem_filter.mp h1.1
    exact ⟨h2.2, h1.2⟩
  · intro dir p hp hg
    exact List.mem_map.mpr ⟨p, List.mem_filter.mpr ⟨hp, hg⟩, rfl⟩

/-- C2 witness: a well-named 2001 file passes the app filter, and a
1968 file is still consumed by the v12 pipeline. -/
theorem year_filter_app_only_witness :
    (globMatch "atp_matches_2001.csv" = true ∧ yearOk "atp_matches_2001.csv" = true) ∧
    (some [] : Option Table) ∈ v12FileTables [("atp_matches_1968.csv", some [])] := by
  constructor
  · exact year_filter_app_only.1 ["atp_matches_2001.csv"] _ (by decide)
  · exact year_filter_app_only.2 _ ("atp_matches_1968.csv", some []) (by decide) (by decide)

/-- C3: when every extraction attempt raises, try_extract_all makes
exactly 3 attempts, sleeps 1.5 s times the attempt number (1500 ms,
3000 ms, 4500 ms) after each failed attempt, and returns failure; the
acquisition block, on reaching extraction with such a zip, then halts
the script with the extraction error. -/
theorem try_extract_all_exhaustion (env : PrimEnv) (st : PrimState)
    (hfail : ∀ n, env.extractOk n = false) :
    try_extract_all env.extractOk 3 = (false, 3, [1500, 3000, 4500]) ∧
    (primFresh st = false → (st.zipCache = true ∨ env.fetchOk = true) →
      (ensurePrimarySource env st).halted = true ∧
      "Could not extract ATP dataset after multiple retries." ∈
        (ensurePrimarySource env st).errors) := by
  have hext : try_extract_all env.extractOk 3 = (false, 3, [1500, 3000, 4500]) := by
    simp [try_extract_all, try_extract_go, hfail]
  refine ⟨hext, fun hfresh hz => ?_⟩
  have hg : (!st.zipCache && !env.fetchOk) = false := by
    rcases hz with h | h <;> simp [h]
  have h1 : (try_extract_all env.extractOk 3).1 = false := by rw [hext]
  constructor
  · simp [ensurePrimarySource, hfresh, hg, h1]
  · simp [ensurePrimarySource, hfresh, hg, h1]

/-- C3 witness: the exhaustion behaviour evaluated on an always-failing
extractor. -/
theorem try_extract_all_exhaustion_witness :
    try_extract_all (fun _ => false) 3 = (false, 3, [1500, 3000, 4500]) ∧
    (ensurePrimarySource ⟨true, fun _ => false, true, [], false, false, false, false⟩
        ⟨none, false⟩).halted = true := by
  have h := try_extract_all_exhaustion
    ⟨true, fun _ => false, true, [], false, false, false, false⟩
    ⟨none, false⟩ (fun _ => rfl)
  exact ⟨h.1, (h.2 rfl (Or.inr rfl)).1⟩

lemma ensurePrimarySource_fetched (env : PrimEnv) (st : PrimState) :
    (ensurePrimarySource env st).fetched = (!primFresh st && !st.zipCache) := by
  by_cases h : primFresh st
  · simp [ensurePrimarySource, h]
  · simp only [Bool.not_eq_true] at h
    simp only [ensurePrimarySource, h, Bool.false_eq_true, if_false, Bool.not_false,
      Bool.true_and]
    split
    · rfl
    · split
      · rfl
      · split
        · rfl
        · rfl

/-- C8: when atp_data exists and is non-empty — which a successful first
run leaves behind — the whole acquisition block is a no-op: no fetch,
no state change, no messages; and independently, whenever the cached
archive zip already exists, no path of the block performs an HTTP
fetch. -/
theorem ensurePrimarySource_idempotent (env : PrimEnv) (st : PrimState) :
    (∀ l, st.atpData = some l → l ≠ [] →
      ensurePrimarySource env st = ⟨st, false, false, [], []⟩) ∧
    (st.zipCache = true → (ensurePrimarySource env st).fetched = false) := by
  constructor
  · intro l hl hne
    have hfresh : primFresh st = true := by
      simp [primFresh, hl, hne]
    simp [ensurePrimarySource, hfresh]
  · intro hz
    rw [ensurePrimarySource_fetched, hz]
    simp

/-- C8 witness: a populated atp_data makes the block a no-op, and an
existing zip cache suppresses the fetch even without atp_data. -/
theorem ensurePrimarySource_idempotent_witness :
    ensurePrimarySource ⟨true, fun _ => true, true, ["f"], false, false, false, false⟩
        ⟨some ["atp_matches_2001.csv"], false⟩ =
      ⟨⟨some ["atp_matches_2001.csv"], false⟩, false, false, [], []⟩ ∧
    (ensurePrimarySource ⟨true, fun _ => true, true, ["f"], false, false, false, false⟩
        ⟨none, true⟩).fetched = false := by
  constructor
  · exact (ensurePrimarySource_idempotent _ _).1 ["atp_matches_2001.csv"] rfl (by decide)
  · exact (ensurePrimarySource_idempotent _ _).2 rfl

/-- C9: if the move-into-place step raises (removing the old atp_data
or the rename), the block shows an error but does not halt, and the run
proceeds to the loading phase; by contrast fetch failure, extraction
exhaustion, and a missing expected folder each halt the run. -/
theorem move_failure_nonfatal (env : PrimEnv) (st : PrimState) :
    (primFresh st = false → (st.zipCache = true ∨ env.fetchOk = true) →
      (try_extract_all env.extractOk 3).1 = true → env.hasMasterFolder = true →
      moveFails env st = true →
      (ensurePrimarySource env st).halted = false ∧
      "Failed to move ATP data directory" ∈ (ensurePrimarySource env st).errors) ∧
    (primFresh st = false → st.zipCache = false → env.fetchOk = false →
      (ensurePrimarySource env st).halted = true) ∧
    (primFresh st = false → (st.zipCache = true ∨ env.fetchOk = true) →
      (try_extract_all env.extractOk 3).1 = false →
      (ensurePrimarySource env st).halted = true) ∧
    (primFresh st = false → (st.zipCache = true ∨ env.fetchOk = true) →
      (try_extract_all env.extractOk 3).1 = true → env.hasMasterFolder = false →
      (ensurePrimarySource env st).halted = true) := by
  refine ⟨?_, ?_, ?_, ?_⟩
  · intro hfresh hz hext hmf hmove
    have hg : (!st.zipCache && !env.fetchOk) = false := by
      rcases hz with h | h <;> simp [h]
    obtain ⟨ad, zc⟩ := st
    cases ad with
    | none =>
      simp only [moveFails] at hmove
      constructor
      · simp [ensurePrimarySource, hfresh, hg, hext, hmf, hmove]
      · simp [ensurePrimarySource, hfresh, hg, hext, hmf, hmove]
    | some L =>
      simp only [moveFails] at hmove
      cases hrm : env.rmAtpFails with
      | true =>
        constructor
        · simp [ensurePrimarySource, hfresh, hg, hext, hmf, hrm]
        · simp [ensurePrimarySource, hfresh, hg, hext, hmf, hrm]
      | false =>
        have hrn : env.renameFails = true := by
          rw [hrm] at hmove
          simpa using hmove
        constructor
        · simp [ensurePrimarySource, hfresh, hg, hext, hmf, hrm, hrn]
        · simp [ensurePrimarySource, hfresh, hg, hext, hmf, hrm, hrn]
  · intro hfresh hzc hfo
    simp [ensurePrimarySource, hfresh, hzc, hfo]
  · intro hfresh hz hext
    have hg : (!st.zipCache && !env.fetchOk) = false := by
      rcases hz with h | h <;> simp [h]
    simp [ensurePrimarySource, hfresh, hg, hext]
  · intro hfresh hz hext hmf
    have hg : (!st.zipCache && !env.fetchOk) = false := by
      rcases hz with h | h <;> simp [h]
    simp [ensurePrimarySource, hfresh, hg, hext, hmf]

/-- C9 witness: a failing rmtree of atp_data reports the move error
without halting, while fetch failure, extraction exhaustion, and a
missing folder each halt. -/
theorem move_failure_nonfatal_witness :
    (ensurePrimarySource ⟨true, fun _ => true, true, ["f"], false, true, false, false⟩
        ⟨some [], false⟩).halted = false ∧
    "Failed to move ATP data directory" ∈
      (ensurePrimarySource ⟨true, fun _ => true, true, ["f"], false, true, false, false⟩
        ⟨some [], false⟩).errors ∧
    (ensurePrimarySource ⟨false, fun _ => true, true, ["f"], false, false, false, false⟩
        ⟨none, false⟩).halted = true ∧
    (ensurePrimarySource ⟨true, fun _ => false, true, ["f"], false, false, false, false⟩
        ⟨none, false⟩).halted = true ∧
    (ensurePrimarySource ⟨true, fun _ => true, false, ["f"], false, false, false, false⟩
        ⟨none, false⟩).halted = true := by
  refine ⟨?_, ?_, ?_, ?_, ?_⟩
  · exact ((move_failure_nonfatal
      ⟨true, fun _ => true, true, ["f"], false, true, false, false⟩
      ⟨some [], false⟩).1 rfl (Or.inr rfl) rfl rfl rfl).1
  · exact ((move_failure_nonfatal
      ⟨true, fun _ => true, true, ["f"], false, true, false, false⟩
      ⟨some [], false⟩).1 rfl (Or.inr rfl) rfl rfl rfl).2
  · exact (move_failure_nonfatal
      ⟨false, fun _ => true, true, ["f"], false, false, false, false⟩
      ⟨none, false⟩).2.1 rfl rfl rfl
  · exact (move_failure_nonfatal
      ⟨true, fun _ => false, true, ["f"], false, false, false, false⟩
      ⟨none, false⟩).2.2.1 rfl (Or.inr rfl) rfl
  · exact (move_failure_nonfatal
      ⟨true, fun _ => true, false, ["f"], false, false, false, false⟩
      ⟨none, false⟩).2.2.2 rfl (Or.inr rfl) rfl rfl

end TennisPredictor
